import Mathlib

/-!
# Formal model of the product-catalog backend (`src/backend/server.py`)

A shallow embedding of the core of the service: the token subsystem
(`create_access_token` / `verify_token`), the password hasher wrappers
(`hash_password` / `verify_password`), the record normalizer
(`prepare_for_mongo` / `parse_from_mongo`), the startup bootstrap
(`create_default_admin` / `admin_login`) and the product repository
endpoints (`get_all_products`, `get_product`, `create_product`,
`update_product`, `delete_product`).

External collaborators are modelled at the granularity the handlers use
them: the Mongo collection is a list of documents (`find_one` = first
match, `update_one` / `delete_one` act on the first match), PyJWT is an
idealized MAC-signed token, passlib's `CryptContext` is an idealized
salted hasher that raises on a hash string it cannot identify, and
`datetime` is a component record with an executable
`isoformat` / `fromisoformat` pair.  Clock reads
(`datetime.now(timezone.utc)`) are passed in explicitly, one parameter
per textual occurrence of `now()` in the handler being modelled.
-/

/-! ## `datetime`: component timestamps with ISO-8601 text encoding -/

/-- Model of a Python `datetime` value: calendar/clock components plus a
flag recording whether the value is timezone-aware UTC (the only
awareness the server ever creates, via `timezone.utc`). -/
structure DTime where
  year : Nat
  month : Nat
  day : Nat
  hour : Nat
  minute : Nat
  second : Nat
  micro : Nat
  utc : Bool
deriving DecidableEq, Repr

def isLeap (y : Nat) : Bool :=
  (y % 4 == 0 && y % 100 != 0) || y % 400 == 0

def daysInMonth (y m : Nat) : Nat :=
  if m = 2 then (if isLeap y then 29 else 28)
  else if m = 4 ∨ m = 6 ∨ m = 9 ∨ m = 11 then 30
  else 31

/-- The component ranges accepted by the `datetime` constructor. -/
def DTime.valid (t : DTime) : Bool :=
  1 ≤ t.year && t.year ≤ 9999 && 1 ≤ t.month && t.month ≤ 12 &&
  1 ≤ t.day && t.day ≤ daysInMonth t.year t.month &&
  t.hour ≤ 23 && t.minute ≤ 59 && t.second ≤ 59 && t.micro ≤ 999999

/-- Chronological embedding of a (valid) `DTime` into `Nat`: a radix
encoding with strictly larger bases than any valid field value, so that
for valid timestamps `enc` orders exactly as Python `datetime`
comparison does. -/
def DTime.enc (t : DTime) : Nat :=
  (((((t.year * 13 + t.month) * 32 + t.day) * 24 + t.hour) * 60 +
    t.minute) * 60 + t.second) * 1000000 + t.micro

/-- One ASCII digit character. -/
def dig (n : Nat) : Char := Char.ofNat (48 + n)

def digVal (c : Char) : Nat := c.toNat - 48

def isDig (c : Char) : Bool := 48 ≤ c.toNat && c.toNat ≤ 57

def pad2 (n : Nat) : List Char := [dig (n / 10), dig (n % 10)]

def pad4 (n : Nat) : List Char :=
  [dig (n / 1000), dig (n / 100 % 10), dig (n / 10 % 10), dig (n % 10)]

def pad6 (n : Nat) : List Char :=
  [dig (n / 100000), dig (n / 10000 % 10), dig (n / 1000 % 10),
   dig (n / 100 % 10), dig (n / 10 % 10), dig (n % 10)]

/-- Character list of `datetime.isoformat()`: `YYYY-MM-DDTHH:MM:SS`,
the microsecond fraction exactly when it is nonzero, and the `+00:00`
offset exactly when the value is timezone-aware UTC. -/
def DTime.isoChars (t : DTime) : List Char :=
  pad4 t.year ++ '-' :: (pad2 t.month ++ '-' :: (pad2 t.day ++ 'T' ::
    (pad2 t.hour ++ ':' :: (pad2 t.minute ++ ':' :: (pad2 t.second ++
      ((if t.micro = 0 then [] else '.' :: pad6 t.micro) ++
        (if t.utc then ['+', '0', '0', ':', '0', '0'] else [])))))))

/-- `datetime.isoformat()`. -/
def DTime.isoformat (t : DTime) : String := ⟨t.isoChars⟩

def parse2 : List Char → Option (Nat × List Char)
  | a :: b :: rest =>
    if isDig a && isDig b then some (digVal a * 10 + digVal b, rest) else none
  | _ => none

def parse4 : List Char → Option (Nat × List Char)
  | a :: b :: c :: d :: rest =>
    if isDig a && isDig b && isDig c && isDig d then
      some (((digVal a * 10 + digVal b) * 10 + digVal c) * 10 + digVal d, rest)
    else none
  | _ => none

def parse6 : List Char → Option (Nat × List Char)
  | a :: b :: c :: d :: e :: f :: rest =>
    if isDig a && isDig b && isDig c && isDig d && isDig e && isDig f then
      some (((((digVal a * 10 + digVal b) * 10 + digVal c) * 10 + digVal d) * 10 +
        digVal e) * 10 + digVal f, rest)
    else none
  | _ => none

def expectCh (ch : Char) : List Char → Option (List Char)
  | c :: rest => if c = ch then some rest else none
  | _ => none

/-- Model of `datetime.fromisoformat` on its documented domain: it is
the inverse of `isoformat`, accepting exactly the `isoformat` output
grammar for full datetimes (naive, or UTC-aware with a `+00:00`
offset — the only forms this system ever writes) and failing — Python
raises `ValueError` — on any other string, including every string that
is not a valid ISO-8601 timestamp, with the constructor's component
range checks applied. -/
def DTime.fromisoChars (cs : List Char) : Option DTime := do
  let (y, cs) ← parse4 cs
  let cs ← expectCh '-' cs
  let (mo, cs) ← parse2 cs
  let cs ← expectCh '-' cs
  let (d, cs) ← parse2 cs
  let cs ← expectCh 'T' cs
  let (h, cs) ← parse2 cs
  let cs ← expectCh ':' cs
  let (mi, cs) ← parse2 cs
  let cs ← expectCh ':' cs
  let (s, cs) ← parse2 cs
  let (us, cs) ← (match cs with
    | '.' :: cs2 => parse6 cs2
    | _ => some (0, cs))
  let utc ← (match cs with
    | [] => some false
    | ['+', '0', '0', ':', '0', '0'] => some true
    | _ => none)
  let t : DTime := ⟨y, mo, d, h, mi, s, us, utc⟩
  if t.valid then some t else none

/-- `datetime.fromisoformat`. -/
def DTime.fromisoformat (s : String) : Option DTime :=
  DTime.fromisoChars s.data

/-! ### The textual encoding is the inverse of the decoding -/

theorem digVal_dig (n : Nat) (h : n < 10) : digVal (dig n) = n := by
  interval_cases n <;> decide

theorem isDig_dig (n : Nat) (h : n < 10) : isDig (dig n) = true := by
  interval_cases n <;> decide

theorem parse2_pad2 (n : Nat) (rest : List Char) (h : n < 100) :
    parse2 (pad2 n ++ rest) = some (n, rest) := by
  have h1 : n / 10 < 10 := by omega
  have h2 : n % 10 < 10 := by omega
  simp only [pad2, List.cons_append, List.nil_append, parse2,
    isDig_dig _ h1, isDig_dig _ h2, digVal_dig _ h1, digVal_dig _ h2,
    Bool.and_self, if_true, Option.some.injEq, Prod.mk.injEq, and_true]
  omega

theorem parse4_pad4 (n : Nat) (rest : List Char) (h : n < 10000) :
    parse4 (pad4 n ++ rest) = some (n, rest) := by
  have h1 : n / 1000 < 10 := by omega
  have h2 : n / 100 % 10 < 10 := by omega
  have h3 : n / 10 % 10 < 10 := by omega
  have h4 : n % 10 < 10 := by omega
  simp only [pad4, List.cons_append, List.nil_append, parse4,
    isDig_dig _ h1, isDig_dig _ h2, isDig_dig _ h3, isDig_dig _ h4,
    digVal_dig _ h1, digVal_dig _ h2, digVal_dig _ h3, digVal_dig _ h4,
    Bool.and_self, if_true, Option.some.injEq, Prod.mk.injEq, and_true]
  omega

theorem parse6_pad6 (n : Nat) (rest : List Char) (h : n < 1000000) :
    parse6 (pad6 n ++ rest) = some (n, rest) := by
  have h1 : n / 100000 < 10 := by omega
  have h2 : n / 10000 % 10 < 10 := by omega
  have h3 : n / 1000 % 10 < 10 := by omega
  have h4 : n / 100 % 10 < 10 := by omega
  have h5 : n / 10 % 10 < 10 := by omega
  have h6 : n % 10 < 10 := by omega
  simp only [pad6, List.cons_append, List.nil_append, parse6,
    isDig_dig _ h1, isDig_dig _ h2, isDig_dig _ h3, isDig_dig _ h4,
    isDig_dig _ h5, isDig_dig _ h6,
    digVal_dig _ h1, digVal_dig _ h2, digVal_dig _ h3, digVal_dig _ h4,
    digVal_dig _ h5, digVal_dig _ h6,
    Bool.and_self, if_true, Option.some.injEq, Prod.mk.injEq, and_true]
  omega

theorem expectCh_cons (c : Char) (rest : List Char) :
    expectCh c (c :: rest) = some rest := by
  simp [expectCh]

/-- Parsing the printed form of a valid timestamp recovers it exactly. -/
theorem DTime.fromisoChars_isoChars (t : DTime) (h : t.valid = true) :
    DTime.fromisoChars t.isoChars = some t := by
  obtain ⟨y, mo, d, hh, mi, s, us, tz⟩ := t
  simp only [DTime.valid, Bool.and_eq_true, decide_eq_true_eq] at h
  obtain ⟨⟨⟨⟨⟨⟨⟨⟨⟨h1, h2⟩, h3⟩, h4⟩, h5⟩, h6⟩, h7⟩, h8⟩, h9⟩, h10⟩ := h
  have hdm : daysInMonth y mo ≤ 31 := by
    simp only [daysInMonth]
    split
    · split <;> omega
    · split <;> omega
  have hy : y < 10000 := by omega
  have hmo : mo < 100 := by omega
  have hd : d < 100 := by omega
  have hhh : hh < 100 := by omega
  have hmi : mi < 100 := by omega
  have hs : s < 100 := by omega
  have hus : us < 1000000 := by omega
  have hvalid : DTime.valid ⟨y, mo, d, hh, mi, s, us, tz⟩ = true := by
    simp only [DTime.valid, Bool.and_eq_true, decide_eq_true_eq]
    refine ⟨⟨⟨⟨⟨⟨⟨⟨⟨h1, h2⟩, h3⟩, h4⟩, h5⟩, h6⟩, h7⟩, h8⟩, h9⟩, h10⟩
  simp only [DTime.isoChars, DTime.fromisoChars, bind, Option.bind,
    parse4_pad4 _ _ hy, expectCh_cons, parse2_pad2 _ _ hmo,
    parse2_pad2 _ _ hd, parse2_pad2 _ _ hhh, parse2_pad2 _ _ hmi,
    parse2_pad2 _ _ hs]
  rcases Nat.eq_zero_or_pos us with hz | hz
  · subst hz
    cases tz <;> simp [hvalid]
  · have hne : ¬ us = 0 := by omega
    simp only [if_neg hne, List.cons_append, parse6_pad6 _ _ hus]
    cases tz <;> simp [hvalid]

/-- String-level version of the round trip. -/
theorem DTime.fromisoformat_isoformat (t : DTime) (h : t.valid = true) :
    DTime.fromisoformat t.isoformat = some t :=
  DTime.fromisoChars_isoChars t h

/-! ## Mongo documents and the record normalizer -/

/-- A value stored in a document field that the normalizer inspects
with `isinstance`: a `datetime`, a string, or any other value (opaque
here, since both normalizer functions leave it untouched). -/
inductive MVal where
  | dt (t : DTime)
  | str (s : String)
  | other (n : Nat)
deriving DecidableEq, Repr

/-- `ProductVariant` model: `{size, color, inventory}`. -/
structure ProductVariant where
  size : Option String
  color : Option String
  inventory : Int
deriving DecidableEq, Repr

/-- A product document as stored in / read from `db.products` (the
`_id` projection is always `{"_id": 0}`, so Mongo's internal id never
appears).  The two timestamp fields keep the dynamic typing the Python
dict has — absent, `datetime`, string, or something else — because
`prepare_for_mongo` / `parse_from_mongo` dispatch on `isinstance`. -/
structure Doc where
  id : String
  name : String
  price : Rat
  description : String
  images : List String
  variants : List ProductVariant
  created_at : Option MVal
  updated_at : Option MVal
deriving DecidableEq, Repr

/-- Per-field action of `prepare_for_mongo`: a `datetime` value becomes
its `isoformat` string; anything else (absent field included) is left
unchanged. -/
def prepField (v : Option MVal) : Option MVal :=
  match v with
  | some (.dt t) => some (.str t.isoformat)
  | x => x

/-- Per-field action of `parse_from_mongo`: a string value is fed to
`datetime.fromisoformat` (`none` = the `ValueError` it raises on a
non-ISO string); anything else is left unchanged. -/
def parseField (v : Option MVal) : Option (Option MVal) :=
  match v with
  | some (.str s) =>
    match DTime.fromisoformat s with
    | some t => some (some (.dt t))
    | none => none
  | x => some x

/-- `prepare_for_mongo(data)`: convert the `created_at` / `updated_at`
fields from `datetime` to ISO strings, touching nothing else. -/
def prepare_for_mongo (data : Doc) : Doc :=
  { data with
    created_at := prepField data.created_at
    updated_at := prepField data.updated_at }

/-- `parse_from_mongo(item)`: convert string `created_at` /
`updated_at` fields back to `datetime`, touching nothing else.  The
result is `none` when `datetime.fromisoformat` raises `ValueError`,
which the Python function does not catch. -/
def parse_from_mongo (item : Doc) : Option Doc := do
  let c ← parseField item.created_at
  let u ← parseField item.updated_at
  some { item with created_at := c, updated_at := u }

/-! ## Token service (`jwt` with `HS256`, `SECRET_KEY`) -/

def ALGORITHM : String := "HS256"

def ACCESS_TOKEN_EXPIRE_MINUTES : Nat := 1440

/-- The claims this server ever puts in a token: the optional `sub`
entry of the payload dict and the `exp` claim (modelled in seconds
since an epoch, as PyJWT serializes `datetime` expiries). -/
structure Payload where
  sub : Option String
  exp : Nat
deriving DecidableEq, Repr

/-- A structurally well-formed JWT: a payload plus its signature,
idealized as the exact key the token was signed with (an ideal MAC:
verification succeeds exactly when the verifying key equals the
signing key). -/
structure Jwt where
  payload : Payload
  sigKey : String
deriving DecidableEq, Repr

/-- A bearer credential as presented by a client: either a well-formed
JWT or a string that does not even decode into segments. -/
inductive Token where
  | jwt (j : Jwt)
  | malformed (s : String)
deriving DecidableEq, Repr

/-- PyJWT failure kinds relevant here; all three are subclasses of
`jwt.InvalidTokenError`. -/
inductive JwtError where
  | invalidSignature
  | expiredSignature
  | decodeError
deriving DecidableEq, Repr

/-- `jwt.encode(payload, key, algorithm="HS256")`. -/
def jwtEncode (payload : Payload) (key : String) : Token :=
  .jwt ⟨payload, key⟩

/-- `jwt.decode(token, key, algorithms=["HS256"])` at time `now`:
splits/decodes the segments (`DecodeError` on garbage), verifies the
signature (`InvalidSignatureError` on mismatch), then validates the
`exp` claim (`ExpiredSignatureError` when `exp ≤ now`). -/
def jwtDecode (tok : Token) (key : String) (now : Nat) : Except JwtError Payload :=
  match tok with
  | .malformed _ => .error .decodeError
  | .jwt j =>
    if j.sigKey ≠ key then .error .invalidSignature
    else if j.payload.exp ≤ now then .error .expiredSignature
    else .ok j.payload

/-- `HTTPException(status_code=..., detail=...)`. -/
structure HTTPException where
  status_code : Nat
  detail : String
deriving DecidableEq, Repr

/-- `create_access_token(data)` at clock read `now` with the
process-wide `SECRET_KEY` `key`: copies the dict (whose only entry
the server ever passes is `"sub"`, modelled as `data`), sets
`exp = now + ACCESS_TOKEN_EXPIRE_MINUTES` minutes, and signs. -/
def create_access_token (data : Option String) (now : Nat) (key : String) : Token :=
  jwtEncode ⟨data, now + ACCESS_TOKEN_EXPIRE_MINUTES * 60⟩ key

/-- `verify_token(credentials)` at time `now` with secret `key`:
decodes, maps `ExpiredSignatureError` to 401 "Token expired", every
other `InvalidTokenError` to 401 "Invalid token", and rejects a
subject-less payload with 401 "Invalid token". -/
def verify_token (credentials : Token) (key : String) (now : Nat) :
    Except HTTPException String :=
  match jwtDecode credentials key now with
  | .ok payload =>
    match payload.sub with
    | some username => .ok username
    | none => .error ⟨401, "Invalid token"⟩
  | .error .expiredSignature => .error ⟨401, "Token expired"⟩
  | .error .invalidSignature => .error ⟨401, "Invalid token"⟩
  | .error .decodeError => .error ⟨401, "Invalid token"⟩

/-! ## Password hasher (`passlib` `CryptContext(schemes=["bcrypt"])`) -/

/-- A hash string as passlib sees it: either a well-formed bcrypt hash
(idealized as salt + the hashed plaintext) or a string that matches no
configured scheme. -/
inductive HashStr where
  | bcrypt (salt : Nat) (pw : String)
  | unrecognized (s : String)
deriving DecidableEq, Repr

/-- The error `CryptContext.verify` raises when the hash string cannot
be identified: `passlib.exc.UnknownHashError`, a `ValueError`. -/
inductive PasslibError where
  | unknownHash
deriving DecidableEq, Repr

/-- `hash_password(password)` = `pwd_context.hash(password)` with the
fresh salt drawn for this call passed explicitly. -/
def hash_password (password : String) (salt : Nat) : HashStr :=
  .bcrypt salt password

/-- `verify_password(plain, hashed)` = `pwd_context.verify`: identifies
the scheme from the hash string — raising `UnknownHashError` if none
matches — then recomputes with the embedded salt and compares in
constant time, idealized as equality of the hashed plaintexts. -/
def verify_password (plain_password : String) (hashed_password : HashStr) :
    Except PasslibError Bool :=
  match hashed_password with
  | .bcrypt _ pw => .ok (pw == plain_password)
  | .unrecognized _ => .error .unknownHash

/-! ## Credential store, bootstrap, login -/

/-- `Admin` model (id generated by `uuid4`). -/
structure Admin where
  id : String
  username : String
  password_hash : HashStr
deriving DecidableEq, Repr

structure AdminLogin where
  username : String
  password : String
deriving DecidableEq, Repr

structure AdminLoginResponse where
  access_token : Token
  token_type : String
  username : String
deriving DecidableEq, Repr

/-- Outcome of a request handler: a value, an `HTTPException` response,
or an unhandled exception surfacing as a server fault (500). -/
inductive PyResult (α : Type) where
  | ok (a : α)
  | httpError (status_code : Nat) (detail : String)
  | fault
deriving DecidableEq, Repr

/-- `create_default_admin()` startup hook over the `db.admins`
collection (a list; `find_one` returns the first match and
`insert_one` appends).  `envU` / `envP` are `ADMIN_USERNAME` /
`ADMIN_PASSWORD` from the environment; Python's `not x` is true for
both a missing variable and an empty string, and in that case the hook
returns without creating anything.  `freshId` and `salt` are the
`uuid4` and bcrypt-salt draws of this run. -/
def create_default_admin (envU envP : Option String) (admins : List Admin)
    (freshId : String) (salt : Nat) : List Admin :=
  match envU, envP with
  | some u, some p =>
    if u == "" || p == "" then admins
    else
      match admins.find? (fun a => a.username == u) with
      | some _ => admins
      | none => admins ++ [⟨freshId, u, hash_password p salt⟩]
  | _, _ => admins

/-- `admin_login(login_data)`: look up the username (`find_one` = first
match), reject unknown users and wrong passwords with the same 401,
issue a token on success.  A `verify_password` exception (malformed
stored hash) propagates as a server fault. -/
def admin_login (login_data : AdminLogin) (admins : List Admin) (now : Nat)
    (key : String) : PyResult AdminLoginResponse :=
  match admins.find? (fun a => a.username == login_data.username) with
  | none => .httpError 401 "Incorrect username or password"
  | some admin =>
    match verify_password login_data.password admin.password_hash with
    | .error _ => .fault
    | .ok false => .httpError 401 "Incorrect username or password"
    | .ok true =>
      .ok ⟨create_access_token (some admin.username) now key, "bearer",
        admin.username⟩

/-! ## Product repository -/

/-- `Product` response model: server-generated id and timestamps. -/
structure Product where
  id : String
  name : String
  price : Rat
  description : String
  images : List String
  variants : List ProductVariant
  created_at : DTime
  updated_at : DTime
deriving DecidableEq, Repr

/-- `ProductCreate`: the client supplies neither id nor timestamps. -/
structure ProductCreate where
  name : String
  price : Rat
  description : String
  images : List String
  variants : List ProductVariant
deriving DecidableEq, Repr

/-- `ProductUpdate`: every field optional, `None` meaning "not
supplied". -/
structure ProductUpdate where
  name : Option String
  price : Option Rat
  description : Option String
  images : Option (List String)
  variants : Option (List ProductVariant)
deriving DecidableEq, Repr

/-- `product.model_dump()`: the document dict of a `Product`, with the
timestamp fields holding `datetime` values. -/
def Product.model_dump (p : Product) : Doc :=
  ⟨p.id, p.name, p.price, p.description, p.images, p.variants,
    some (.dt p.created_at), some (.dt p.updated_at)⟩

/-- `db.products.find_one({"id": pid}, {"_id": 0})`. -/
def findFirst (store : List Doc) (pid : String) : Option Doc :=
  store.find? (fun d => d.id == pid)

/-- `db.products.update_one({...}, {"$set": ...})` applied to the first
matching document. -/
def updateFirst (p : Doc → Bool) (f : Doc → Doc) : List Doc → List Doc
  | [] => []
  | d :: ds => if p d then f d :: ds else d :: updateFirst p f ds

/-- The handler loop `for product in products: product =
parse_from_mongo(product)`: each dict is normalized in place
(`parse_from_mongo` mutates its argument and returns it, so the
rebinding of the loop variable is a no-op); the first unparseable
timestamp string raises out of the loop. -/
def parseAll : List Doc → Option (List Doc)
  | [] => some []
  | d :: ds => do
    let r ← parse_from_mongo d
    let rs ← parseAll ds
    some (r :: rs)

/-- `get_all_products()`: `find({}).to_list(1000)` reads at most the
first 1000 stored documents, which the loop then normalizes; an
unparseable timestamp string raises out of the handler. -/
def get_all_products (store : List Doc) : PyResult (List Doc) :=
  match parseAll (store.take 1000) with
  | some l => .ok l
  | none => .fault

/-- `get_admin_products()`: body identical to `get_all_products` (the
bearer-token check happens in the `Depends(verify_token)` layer before
the body runs). -/
def get_admin_products (store : List Doc) : PyResult (List Doc) :=
  get_all_products store

/-- `get_product(product_id)`. -/
def get_product (product_id : String) (store : List Doc) : PyResult Doc :=
  match findFirst store product_id with
  | none => .httpError 404 "Product not found"
  | some product =>
    match parse_from_mongo product with
    | some r => .ok r
    | none => .fault

/-- `create_product(product_data)`: builds `Product(**dump)`, whose
missing fields are filled by the default factories — `uuid4` for `id`
(`freshId`), and one `datetime.now(timezone.utc)` read per timestamp
field, evaluated separately in field order (`tCreated` then
`tUpdated`) — then inserts `prepare_for_mongo(product.model_dump())`
and returns the in-memory product. -/
def create_product (product_data : ProductCreate) (freshId : String)
    (tCreated tUpdated : DTime) (store : List Doc) : Product × List Doc :=
  let product : Product :=
    ⟨freshId, product_data.name, product_data.price, product_data.description,
      product_data.images, product_data.variants, tCreated, tUpdated⟩
  let doc := prepare_for_mongo product.model_dump
  (product, store ++ [doc])

/-- `update_product(product_id, product_data)` at clock read `now`:
404 when no document matches; otherwise `update_data` keeps exactly
the non-`None` fields of the request plus `updated_at = now`,
`prepare_for_mongo` turns that `datetime` into an ISO string
(`created_at` is absent from `update_data`, so it is untouched),
`$set` merges the pairs into the first matching document, and the
reloaded document is returned through `parse_from_mongo` (whose
`ValueError` on a corrupt stored timestamp would propagate). -/
def update_product (product_id : String) (product_data : ProductUpdate)
    (now : DTime) (store : List Doc) : PyResult Doc × List Doc :=
  match findFirst store product_id with
  | none => (.httpError 404 "Product not found", store)
  | some existing_product =>
    let merged : Doc :=
      { existing_product with
        name := product_data.name.getD existing_product.name
        price := product_data.price.getD existing_product.price
        description := product_data.description.getD existing_product.description
        images := product_data.images.getD existing_product.images
        variants := product_data.variants.getD existing_product.variants
        updated_at := some (.str now.isoformat) }
    let store' := updateFirst (fun d => d.id == product_id) (fun _ => merged) store
    match parse_from_mongo merged with
    | some r => (.ok r, store')
    | none => (.fault, store')

/-- `delete_product(product_id)`: `delete_one` removes the first
matching document; the handler reports 404 exactly when
`deleted_count == 0`, i.e. when nothing matched. -/
def delete_product (product_id : String) (store : List Doc) :
    PyResult String × List Doc :=
  let store' := store.eraseP (fun d => d.id == product_id)
  (if store.any (fun d => d.id == product_id) then
    .ok "Product deleted successfully"
  else
    .httpError 404 "Product not found", store')

/-! ## Claim theorems -/

/-- C1: for every subject `s`, validating a token immediately after
issuing it for `s` — same process-wide secret, any check time before
the 24-hour TTL elapses — succeeds and returns `s`. -/
theorem C1_validate_after_issue (s key : String) (tIssue tCheck : Nat)
    (h : tCheck < tIssue + ACCESS_TOKEN_EXPIRE_MINUTES * 60) :
    verify_token (create_access_token (some s) tIssue key) key tCheck =
      .ok s := by
  have hne : ¬ (tIssue + ACCESS_TOKEN_EXPIRE_MINUTES * 60 ≤ tCheck) :=
    Nat.not_le.mpr h
  simp [verify_token, jwtDecode, create_access_token, jwtEncode, hne]

theorem C1_witness :
    (0 : Nat) < 0 + ACCESS_TOKEN_EXPIRE_MINUTES * 60 ∧
    verify_token (create_access_token (some "admin") 0 "secret") "secret" 0 =
      .ok "admin" :=
  ⟨by decide, C1_validate_after_issue "admin" "secret" 0 0 (by decide)⟩

/-- C2 counterexample: all three failing sub-causes yield 401, but the
externally visible response is NOT identical across them — an expired
token answers with detail "Token expired" while a tampered-signature or
malformed token answers with detail "Invalid token". -/
theorem C2_counterexample :
    verify_token (.jwt ⟨⟨some "admin", 10⟩, "secret"⟩) "secret" 20 =
      .error ⟨401, "Token expired"⟩ ∧
    verify_token (.jwt ⟨⟨some "admin", 10⟩, "tampered"⟩) "secret" 5 =
      .error ⟨401, "Invalid token"⟩ ∧
    verify_token (.malformed "garbage") "secret" 5 =
      .error ⟨401, "Invalid token"⟩ ∧
    ("Token expired" : String) ≠ "Invalid token" := by
  refine ⟨rfl, rfl, rfl, by decide⟩

/-- C2 (amended): every failing credential — tampered signature,
elapsed expiry, malformed or subject-less token — produces a 401
`HTTPException` and never a server error; the expired sub-cause
carries detail "Token expired" while every other failure carries
detail "Invalid token", so the expired case is externally
distinguishable from the other two. -/
theorem C2_all_failures_401 (tok : Token) (key : String) (now : Nat) :
    (∃ u, verify_token tok key now = .ok u) ∨
    verify_token tok key now = .error ⟨401, "Token expired"⟩ ∨
    verify_token tok key now = .error ⟨401, "Invalid token"⟩ := by
  cases htok : jwtDecode tok key now with
  | ok p =>
    cases hs : p.sub with
    | some u => exact .inl ⟨u, by simp [verify_token, htok, hs]⟩
    | none => exact .inr (.inr (by simp [verify_token, htok, hs]))
  | error e =>
    cases e with
    | invalidSignature => exact .inr (.inr (by simp [verify_token, htok]))
    | expiredSignature => exact .inr (.inl (by simp [verify_token, htok]))
    | decodeError => exact .inr (.inr (by simp [verify_token, htok]))

/-- C3: for every record whose two timestamp fields hold valid
structured timestamps, the storage encoding followed by its inverse
restores the record exactly; both normalizer directions leave absent
or already-converted fields unchanged, each being idempotent on
repeated application. -/
theorem C3_normalizer_roundtrip :
    (∀ (r : Doc) (t u : DTime), r.created_at = some (.dt t) →
      r.updated_at = some (.dt u) → t.valid = true → u.valid = true →
      parse_from_mongo (prepare_for_mongo r) = some r) ∧
    (∀ r : Doc, prepare_for_mongo (prepare_for_mongo r) = prepare_for_mongo r) ∧
    (∀ r r' : Doc, parse_from_mongo r = some r' →
      parse_from_mongo r' = some r') := by
  have hprep : ∀ v, prepField (prepField v) = prepField v := by
    intro v
    rcases v with _ | v
    · rfl
    · rcases v with t | s | n <;> rfl
  have hpf : ∀ v c, parseField v = some c → parseField c = some c := by
    intro v c h
    rcases v with _ | ⟨t | s | n⟩
    · obtain rfl := Option.some.inj h
      rfl
    · obtain rfl := Option.some.inj h
      rfl
    · simp only [parseField] at h
      cases hfs : DTime.fromisoformat s with
      | none => rw [hfs] at h; exact Option.noConfusion h
      | some t =>
        rw [hfs] at h
        obtain rfl := Option.some.inj h
        rfl
    · obtain rfl := Option.some.inj h
      rfl
  refine ⟨?_, ?_, ?_⟩
  · intro r t u hc hu hvt hvu
    obtain ⟨rid, rn, rp, rd, ri, rv, rca, rua⟩ := r
    simp only at hc hu
    subst hc hu
    simp [prepare_for_mongo, parse_from_mongo, prepField, parseField,
      DTime.fromisoformat_isoformat t hvt, DTime.fromisoformat_isoformat u hvu]
  · intro r
    simp [prepare_for_mongo, hprep]
  · intro r r' h
    cases hc : parseField r.created_at with
    | none => simp [parse_from_mongo, hc] at h
    | some c =>
      cases hu : parseField r.updated_at with
      | none => simp [parse_from_mongo, hc, hu] at h
      | some u =>
        simp only [parse_from_mongo, hc, hu, bind, Option.bind,
          Option.some.injEq] at h
        subst h
        simp [parse_from_mongo, hpf _ _ hc, hpf _ _ hu]

theorem C3_witness :
    parse_from_mongo (prepare_for_mongo
      ⟨"p1", "Shirt", 1999/100, "d", ["u1"], [⟨some "M", none, 5⟩],
        some (.dt ⟨2024, 3, 5, 14, 7, 9, 123456, true⟩),
        some (.dt ⟨2024, 3, 5, 14, 7, 10, 0, true⟩)⟩) =
      some ⟨"p1", "Shirt", 1999/100, "d", ["u1"], [⟨some "M", none, 5⟩],
        some (.dt ⟨2024, 3, 5, 14, 7, 9, 123456, true⟩),
        some (.dt ⟨2024, 3, 5, 14, 7, 10, 0, true⟩)⟩ :=
  C3_normalizer_roundtrip.1 _ _ _ rfl rfl (by decide) (by decide)

/-- C4 counterexample: `Product`'s two timestamp default factories are
evaluated separately (one `datetime.now(timezone.utc)` read each, in
field order), so when the second clock read lands one microsecond
after the first, the returned record has `created_at ≠ updated_at` —
creation does not set them equal. -/
theorem C4_counterexample :
    (create_product ⟨"Shirt", 1999/100, "d", [], [⟨some "M", none, 5⟩]⟩
      "id-0" ⟨2024, 3, 5, 14, 7, 9, 100, true⟩
      ⟨2024, 3, 5, 14, 7, 9, 101, true⟩ []).1.created_at ≠
    (create_product ⟨"Shirt", 1999/100, "d", [], [⟨some "M", none, 5⟩]⟩
      "id-0" ⟨2024, 3, 5, 14, 7, 9, 100, true⟩
      ⟨2024, 3, 5, 14, 7, 9, 101, true⟩ []).1.updated_at := by
  decide

/-- C4 (amended): for every create request the server generates the id
and both timestamps (the client can supply none of them); `created_at`
receives the first clock read and `updated_at` the second, so under a
monotone clock `created_at ≤ updated_at`, with equality exactly when
the two reads coincide — equality is not guaranteed; the persisted
document is the normalized dump of the returned record, and for valid
clock reads it parses back to exactly that dump. -/
theorem C4_create_product (pd : ProductCreate) (freshId : String)
    (t1 t2 : DTime) (store : List Doc) (hmono : t1.enc ≤ t2.enc) :
    (create_product pd freshId t1 t2 store).1 =
      ⟨freshId, pd.name, pd.price, pd.description, pd.images, pd.variants,
        t1, t2⟩ ∧
    (create_product pd freshId t1 t2 store).2 =
      store ++ [prepare_for_mongo (Product.model_dump
        ⟨freshId, pd.name, pd.price, pd.description, pd.images, pd.variants,
          t1, t2⟩)] ∧
    (create_product pd freshId t1 t2 store).1.created_at.enc ≤
      (create_product pd freshId t1 t2 store).1.updated_at.enc ∧
    (t1.valid = true → t2.valid = true →
      parse_from_mongo (prepare_for_mongo
        (create_product pd freshId t1 t2 store).1.model_dump) =
        some (create_product pd freshId t1 t2 store).1.model_dump) := by
  refine ⟨rfl, rfl, hmono, ?_⟩
  intro hv1 hv2
  simp [create_product, Product.model_dump, prepare_for_mongo,
    parse_from_mongo, prepField, parseField,
    DTime.fromisoformat_isoformat _ hv1, DTime.fromisoformat_isoformat _ hv2]

theorem C4_witness :
    DTime.enc ⟨2024, 3, 5, 14, 7, 9, 100, true⟩ ≤
      DTime.enc ⟨2024, 3, 5, 14, 7, 9, 101, true⟩ ∧
    (create_product ⟨"Shirt", 1999/100, "d", [], []⟩ "id-0"
      ⟨2024, 3, 5, 14, 7, 9, 100, true⟩ ⟨2024, 3, 5, 14, 7, 9, 101, true⟩
      []).1 =
      ⟨"id-0", "Shirt", 1999/100, "d", [], [],
        ⟨2024, 3, 5, 14, 7, 9, 100, true⟩, ⟨2024, 3, 5, 14, 7, 9, 101, true⟩⟩ :=
  ⟨by decide,
    (C4_create_product ⟨"Shirt", 1999/100, "d", [], []⟩ "id-0"
      ⟨2024, 3, 5, 14, 7, 9, 100, true⟩ ⟨2024, 3, 5, 14, 7, 9, 101, true⟩
      [] (by decide)).1⟩

/-- C5: updating an absent id fails with 404; updating an existing
product merges exactly the explicitly supplied (non-`None`) request
fields into the first matching stored document, leaves every
unsupplied field (including `id` and the stored `created_at` string)
unchanged, unconditionally refreshes `updated_at` to the current clock
read — strictly greater than the stored previous value whenever the
clock has strictly advanced past it — and returns the reloaded,
re-parsed record. -/
theorem C5_update_product (pid : String) (pd : ProductUpdate) (now : DTime)
    (store : List Doc) :
    (findFirst store pid = none →
      update_product pid pd now store =
        (.httpError 404 "Product not found", store)) ∧
    (∀ ex cs ct prevs prev, findFirst store pid = some ex →
      ex.created_at = some (.str cs) → DTime.fromisoformat cs = some ct →
      ex.updated_at = some (.str prevs) →
      DTime.fromisoformat prevs = some prev →
      now.valid = true → prev.enc < now.enc →
      update_product pid pd now store =
        (.ok { ex with
            name := pd.name.getD ex.name
            price := pd.price.getD ex.price
            description := pd.description.getD ex.description
            images := pd.images.getD ex.images
            variants := pd.variants.getD ex.variants
            created_at := some (.dt ct)
            updated_at := some (.dt now) },
          updateFirst (fun d => d.id == pid)
            (fun _ => { ex with
              name := pd.name.getD ex.name
              price := pd.price.getD ex.price
              description := pd.description.getD ex.description
              images := pd.images.getD ex.images
              variants := pd.variants.getD ex.variants
              updated_at := some (.str now.isoformat) }) store) ∧
      prev.enc < (DTime.enc now)) := by
  constructor
  · intro h
    simp [update_product, h]
  · intro ex cs ct prevs prev hex hc hct hu hprev hvnow hlt
    refine ⟨?_, hlt⟩
    obtain ⟨eid, en, ep, ed, ei, ev, eca, eua⟩ := ex
    simp only at hc hu
    subst hc hu
    simp [update_product, hex, parse_from_mongo, parseField, hct,
      DTime.fromisoformat_isoformat now hvnow]

theorem C5_witness :
    update_product "p1" ⟨none, some (2499/100), none, none, none⟩
      ⟨2024, 3, 5, 14, 8, 0, 0, true⟩
      [⟨"p1", "Shirt", 1999/100, "d", [], [],
        some (.str "2024-03-05T14:07:09+00:00"),
        some (.str "2024-03-05T14:07:09+00:00")⟩] =
    (.ok ⟨"p1", "Shirt", 2499/100, "d", [], [],
        some (.dt ⟨2024, 3, 5, 14, 7, 9, 0, true⟩),
        some (.dt ⟨2024, 3, 5, 14, 8, 0, 0, true⟩)⟩,
      [⟨"p1", "Shirt", 2499/100, "d", [], [],
        some (.str "2024-03-05T14:07:09+00:00"),
        some (.str "2024-03-05T14:08:00+00:00")⟩]) :=
  ((C5_update_product "p1" ⟨none, some (2499/100), none, none, none⟩
      ⟨2024, 3, 5, 14, 8, 0, 0, true⟩
      [⟨"p1", "Shirt", 1999/100, "d", [], [],
        some (.str "2024-03-05T14:07:09+00:00"),
        some (.str "2024-03-05T14:07:09+00:00")⟩]).2
    ⟨"p1", "Shirt", 1999/100, "d", [], [],
      some (.str "2024-03-05T14:07:09+00:00"),
      some (.str "2024-03-05T14:07:09+00:00")⟩
    "2024-03-05T14:07:09+00:00" ⟨2024, 3, 5, 14, 7, 9, 0, true⟩
    "2024-03-05T14:07:09+00:00" ⟨2024, 3, 5, 14, 7, 9, 0, true⟩
    rfl rfl (by decide) rfl (by decide) (by decide) (by decide)).1

/-- C6 counterexample: `find({}).to_list(1000)` caps the read at 1000
documents, so with 1001 stored products `get_all_products` returns
only 1000 of them — not every stored product. -/
theorem C6_counterexample :
    get_all_products (List.replicate 1001
      (⟨"p", "n", 0, "", [], [], none, none⟩ : Doc)) =
      .ok (List.replicate 1000 (⟨"p", "n", 0, "", [], [], none, none⟩ : Doc)) ∧
    (List.replicate 1000 (⟨"p", "n", 0, "", [], [], none, none⟩ : Doc)).length <
      (List.replicate 1001 (⟨"p", "n", 0, "", [], [], none, none⟩ : Doc)).length := by
  have hone : parse_from_mongo (⟨"p", "n", 0, "", [], [], none, none⟩ : Doc) =
      some ⟨"p", "n", 0, "", [], [], none, none⟩ := rfl
  have hmap : ∀ n,
      parseAll (List.replicate n (⟨"p", "n", 0, "", [], [], none, none⟩ : Doc)) =
      some (List.replicate n (⟨"p", "n", 0, "", [], [], none, none⟩ : Doc)) := by
    intro n
    induction n with
    | zero => rfl
    | succ k ih =>
      rw [List.replicate_succ]
      simp only [parseAll, hone, ih, Option.bind_eq_bind, Option.some_bind]
  have ht : (List.replicate 1001 (⟨"p", "n", 0, "", [], [], none, none⟩ : Doc)).take
      1000 = List.replicate 1000 (⟨"p", "n", 0, "", [], [], none, none⟩ : Doc) := by
    rw [List.take_replicate]
    norm_num
  constructor
  · simp only [get_all_products, ht, hmap 1000]
  · simp only [List.length_replicate]
    norm_num

/-- C6 (amended): `listAll` returns the first at-most-1000 stored
products, each passed through the normalizer, in store-native order
(no guaranteed sort); when the store holds at most 1000 products this
is every stored product.  The admin listing behaves identically. -/
theorem C6_list_products (store : List Doc) (l : List Doc)
    (h : parseAll (store.take 1000) = some l) :
    get_all_products store = .ok l ∧
    get_admin_products store = .ok l ∧
    (store.length ≤ 1000 → parseAll store = some l) := by
  have h1 : get_all_products store = .ok l := by
    simp only [get_all_products, h]
  refine ⟨h1, h1, ?_⟩
  intro hle
  rwa [List.take_of_length_le hle] at h

theorem C6_witness :
    get_all_products [(⟨"p", "n", 0, "", [], [], none, none⟩ : Doc)] =
      .ok [⟨"p", "n", 0, "", [], [], none, none⟩] ∧
    parseAll [(⟨"p", "n", 0, "", [], [], none, none⟩ : Doc)] =
      some [⟨"p", "n", 0, "", [], [], none, none⟩] := by
  have hthm := C6_list_products [⟨"p", "n", 0, "", [], [], none, none⟩]
    [⟨"p", "n", 0, "", [], [], none, none⟩] rfl
  exact ⟨hthm.1, hthm.2.2 (by decide)⟩

/-- C7: startup bootstrap never installs a default credential and is
idempotent — with a missing (or empty, which Python's truthiness also
treats as unset) username or password it creates nothing, so on an
empty admin collection every login fails; with both supplied it
creates an admin only when none with that username exists, and never
overwrites an existing credential. -/
theorem C7_bootstrap :
    (∀ envP admins freshId salt,
      create_default_admin none envP admins freshId salt = admins) ∧
    (∀ envU admins freshId salt,
      create_default_admin envU none admins freshId salt = admins) ∧
    (∀ p admins freshId salt,
      create_default_admin (some "") (some p) admins freshId salt = admins) ∧
    (∀ u admins freshId salt,
      create_default_admin (some u) (some "") admins freshId salt = admins) ∧
    (∀ u p admins freshId salt,
      (admins.find? (fun a => a.username == u)).isSome = true →
      create_default_admin (some u) (some p) admins freshId salt = admins) ∧
    (∀ u p admins freshId salt, u ≠ "" → p ≠ "" →
      admins.find? (fun a => a.username == u) = none →
      create_default_admin (some u) (some p) admins freshId salt =
        admins ++ [⟨freshId, u, hash_password p salt⟩]) ∧
    (∀ u p admins freshId salt freshId2 salt2,
      create_default_admin (some u) (some p)
        (create_default_admin (some u) (some p) admins freshId salt)
        freshId2 salt2 =
      create_default_admin (some u) (some p) admins freshId salt) ∧
    (∀ login now key, admin_login login [] now key =
      .httpError 401 "Incorrect username or password") := by
  refine ⟨?_, ?_, ?_, ?_, ?_, ?_, ?_, ?_⟩
  · intro envP admins freshId salt
    rcases envP with _ | p <;> rfl
  · intro envU admins freshId salt
    rcases envU with _ | u <;> rfl
  · intro p admins freshId salt
    rfl
  · intro u admins freshId salt
    simp [create_default_admin]
  · intro u p admins freshId salt h
    simp only [create_default_admin]
    cases hfind : admins.find? (fun a => a.username == u) with
    | none => rw [hfind] at h; simp at h
    | some a => simp [hfind]
  · intro u p admins freshId salt hu hp hfind
    simp [create_default_admin, hfind, hu, hp]
  · intro u p admins freshId salt freshId2 salt2
    by_cases hu : u = ""
    · subst hu
      simp [create_default_admin]
    · by_cases hp : p = ""
      · subst hp
        simp [create_default_admin]
      · cases hfind : admins.find? (fun a => a.username == u) with
        | some a => simp [create_default_admin, hfind, hu, hp]
        | none =>
          have hfind2 : (admins ++
              [(⟨freshId, u, hash_password p salt⟩ : Admin)]).find?
              (fun a => a.username == u) =
              some ⟨freshId, u, hash_password p salt⟩ := by
            rw [List.find?_append, hfind]
            simp
          simp [create_default_admin, hfind, hfind2, hu, hp]
  · intro login now key
    rfl

theorem C7_witness :
    create_default_admin (some "root") (some "pw") [] "id1" 7 =
      [⟨"id1", "root", hash_password "pw" 7⟩] ∧
    admin_login ⟨"root", "pw"⟩ [] 0 "k" =
      .httpError 401 "Incorrect username or password" :=
  ⟨C7_bootstrap.2.2.2.2.2.1 "root" "pw" [] "id1" 7 (by decide) (by decide) rfl,
    C7_bootstrap.2.2.2.2.2.2.2 ⟨"root", "pw"⟩ 0 "k"⟩

/-- C8 counterexample: on a malformed hash string — one produced by no
configured scheme — `pwd_context.verify` raises `UnknownHashError` (a
`ValueError`), so `verify_password` does not return `false`: it
throws. -/
theorem C8_counterexample :
    verify_password "admin123" (.unrecognized "not-a-bcrypt-hash") =
      .error .unknownHash ∧
    (Except.error PasslibError.unknownHash : Except PasslibError Bool) ≠
      .ok false :=
  ⟨rfl, fun h => Except.noConfusion h⟩

/-- C8 (amended): for a well-formed hash, `verify_password` returns
exactly the comparison result (`false` for every wrong plaintext,
never an error); for a malformed hash string it raises
`UnknownHashError`, which propagates as a server fault rather than
verifying as false — the hasher's only non-success path. -/
theorem C8_verify_hasher (plain pw s : String) (salt : Nat) :
    verify_password plain (hash_password pw salt) = .ok (pw == plain) ∧
    verify_password plain (.unrecognized s) = .error .unknownHash :=
  ⟨rfl, rfl⟩

/-- C9: deletion succeeds exactly when some stored document matches the
id (the first such document being removed), and reports 404 — leaving
the store unchanged — when none matches. -/
theorem C9_delete_product (pid : String) (store : List Doc) :
    ((∃ d ∈ store, d.id = pid) ↔
      (delete_product pid store).1 = .ok "Product deleted successfully") ∧
    (delete_product pid store).2 = store.eraseP (fun d => d.id == pid) ∧
    ((¬ ∃ d ∈ store, d.id = pid) →
      (delete_product pid store).1 = .httpError 404 "Product not found" ∧
      (delete_product pid store).2 = store) := by
  cases hb : store.any (fun d => d.id == pid) with
  | true =>
    have hex : ∃ d ∈ store, d.id = pid := by
      simpa using List.any_eq_true.mp hb
    refine ⟨iff_of_true hex (by simp [delete_product, hb]), rfl, ?_⟩
    intro hno
    exact absurd hex hno
  | false =>
    have hnone : ∀ d ∈ store, ¬ (d.id == pid) = true := by
      intro d hd hc
      have : store.any (fun x => x.id == pid) = true :=
        List.any_eq_true.mpr ⟨d, hd, hc⟩
      rw [this] at hb
      exact Bool.noConfusion hb
    have hnex : ¬ ∃ d ∈ store, d.id = pid := by
      rintro ⟨d, hd, hid⟩
      exact hnone d hd (by simp [hid])
    refine ⟨iff_of_false hnex (by simp [delete_product, hb]), rfl, ?_⟩
    intro _
    exact ⟨by simp [delete_product, hb],
      by simp [delete_product, List.eraseP_of_forall_not hnone]⟩

theorem C9_witness :
    (delete_product "ghost" [(⟨"p1", "n", 0, "", [], [], none, none⟩ : Doc)]).1 =
      .httpError 404 "Product not found" ∧
    (delete_product "ghost" [(⟨"p1", "n", 0, "", [], [], none, none⟩ : Doc)]).2 =
      [⟨"p1", "n", 0, "", [], [], none, none⟩] ∧
    (delete_product "p1" [(⟨"p1", "n", 0, "", [], [], none, none⟩ : Doc)]).1 =
      .ok "Product deleted successfully" := by
  refine ⟨((C9_delete_product "ghost" _).2.2 (by decide)).1,
    ((C9_delete_product "ghost" _).2.2 (by decide)).2,
    (C9_delete_product "p1" _).1.mp ⟨_, List.mem_singleton_self _, rfl⟩⟩

/-- C10: the storage-to-record direction of the normalizer is partial:
on a stored document whose `created_at` is a string that is not a
valid ISO-8601 timestamp, `datetime.fromisoformat` raises, so
`parse_from_mongo` produces no record and a read of that document
surfaces as a server fault rather than a response. -/
theorem C10_corrupt_timestamp_fault :
    DTime.fromisoformat "corrupted" = none ∧
    parse_from_mongo
      (⟨"p1", "n", 0, "", [], [], some (.str "corrupted"), none⟩ : Doc) =
      none ∧
    get_product "p1"
      [(⟨"p1", "n", 0, "", [], [], some (.str "corrupted"), none⟩ : Doc)] =
      .fault :=
  ⟨rfl, rfl, rfl⟩
